import Mathlib

/-!
Verification of the go-shopify resource clients (`product.go`, `customer.go`).

The two source files implement the Product and Customer resource clients of a
Shopify REST binding.  Each operation builds a URL path with `fmt.Sprintf`,
calls one primitive of a shared HTTP `Client` (`Get`/`Post`/`Put`/`Delete`/
`Count`), and unwraps a JSON envelope.  This file embeds those operations
shallowly: paths are `String`s, the JSON bodies are values of an explicit
`Json` type produced by a model of `encoding/json` marshalling with the
struct tags of the source, and each operation returns its result, its error,
and the list of HTTP requests it issued.

The HTTP `Client`, the `MetafieldServiceOp` helper and the `Metafield`,
`Image`, `Variant`, `CustomerAddress` types are code of the repository that
is not part of the excerpt; they are modelled from the spec where needed and
marked as such in their doc comments.
-/

/-! ### Go `fmt` integer formatting

`product.go` and `customer.go` build item paths with the verbs `%d`
(`ProductServiceOp.Get`, `ProductServiceOp.Delete`, `CustomerServiceOp.Update`,
`CustomerServiceOp.Delete`) and `%v` (`CustomerServiceOp.Get`) applied to a
`uint64`.  Go's `fmt` renders `%d` on an unsigned integer as its base-10
digits; `%v` is documented as the default format, which for integers is
base 10 as well.  The two verbs are modelled by two independently written
decimal renderers so that their agreement is a theorem, not a definition. -/

/-- One decimal digit as a character, `0 ≤ d ≤ 9` expected. -/
def decDigitChar (d : Nat) : Char := Char.ofNat (48 + d)

/-- Model of Go `fmt`'s `%d` verb on `uint64`: push the digits of `n` in
front of `acc`, least-significant digit pushed first.  Structural recursion
on a fuel argument (always called with fuel `n + 1`, which is ample). -/
def fmtUintDAux : Nat → Nat → List Char → List Char
  | 0, _, acc => acc
  | fuel + 1, n, acc =>
    if n < 10 then decDigitChar n :: acc
    else fmtUintDAux fuel (n / 10) (decDigitChar (n % 10) :: acc)

/-- Model of Go `fmt`'s `%d` verb on `uint64`: base-10 rendering. -/
def fmtUintD (n : Nat) : String := String.mk (fmtUintDAux (n + 1) n [])

/-- Little-endian digit list of `n` (empty for `0`), with fuel. -/
def decDigitsRevAux : Nat → Nat → List Nat
  | 0, _ => []
  | fuel + 1, n => if n = 0 then [] else n % 10 :: decDigitsRevAux fuel (n / 10)

/-- Model of Go `fmt`'s `%v` verb on `uint64`.  The `fmt` documentation makes
`%v` on an integer the same as `%d`, i.e. base-10; this renderer is written
independently of `fmtUintD` (digit list, then reverse) so that the agreement
of the two verbs is proved, not assumed. -/
def fmtUintV (n : Nat) : String :=
  if n = 0 then "0"
  else String.mk ((decDigitsRevAux (n + 1) n).reverse.map decDigitChar)

theorem decDigitChar_eq_digitChar : ∀ d, d < 10 → decDigitChar d = Nat.digitChar d := by
  decide

theorem fmtUintDAux_eq_toDigitsCore :
    ∀ fuel n acc, fmtUintDAux fuel n acc = Nat.toDigitsCore 10 fuel n acc := by
  intro fuel
  induction fuel with
  | zero => intro n acc; rfl
  | succ f ih =>
    intro n acc
    rw [fmtUintDAux, Nat.toDigitsCore]
    by_cases h10 : n < 10
    · have hz : n / 10 = 0 := Nat.div_eq_of_lt h10
      rw [if_pos h10, if_pos hz, Nat.mod_eq_of_lt h10,
        decDigitChar_eq_digitChar n h10]
    · have hz : ¬ n / 10 = 0 := by
        intro hc
        exact h10 ((Nat.div_eq_zero_iff (by omega)).mp hc)
      rw [if_neg h10, if_neg hz, ih,
        decDigitChar_eq_digitChar (n % 10) (Nat.mod_lt n (by omega))]

/-- The `%d` model agrees with Lean's own decimal rendering of `Nat`. -/
theorem fmtUintD_eq_repr (n : Nat) : fmtUintD n = Nat.repr n := by
  rw [fmtUintD, Nat.repr, Nat.toDigits, fmtUintDAux_eq_toDigitsCore]
  rfl

theorem decDigitsRevAux_zero : ∀ fuel, decDigitsRevAux fuel 0 = [] := by
  intro fuel
  cases fuel with
  | zero => rfl
  | succ f => rfl

theorem decDigitsRevAux_lt_ten :
    ∀ fuel n d, d ∈ decDigitsRevAux fuel n → d < 10 := by
  intro fuel
  induction fuel with
  | zero => intro n d h; simp [decDigitsRevAux] at h
  | succ f ih =>
    intro n d h
    rw [decDigitsRevAux] at h
    by_cases hn : n = 0
    · simp [hn] at h
    · rw [if_neg hn] at h
      rcases List.mem_cons.mp h with h | h
      · subst h; exact Nat.mod_lt n (by omega)
      · exact ih (n / 10) d h

theorem toDigitsCore_eq_decDigitsRevAux :
    ∀ fuel n acc, n < fuel → 0 < n →
      Nat.toDigitsCore 10 fuel n acc =
        ((decDigitsRevAux fuel n).reverse.map Nat.digitChar) ++ acc := by
  intro fuel
  induction fuel with
  | zero => intro n acc h; omega
  | succ f ih =>
    intro n acc hfuel hn
    rw [Nat.toDigitsCore, decDigitsRevAux, if_neg (by omega : ¬ n = 0)]
    by_cases hz : n / 10 = 0
    · rw [if_pos hz, hz, decDigitsRevAux_zero]
      simp
    · rw [if_neg hz]
      have hlt : n / 10 < f := by
        have : n / 10 < n := Nat.div_lt_self hn (by omega)
        omega
      rw [ih (n / 10) _ hlt (Nat.pos_of_ne_zero hz)]
      simp

/-- The `%v` model also agrees with Lean's decimal rendering of `Nat`. -/
theorem fmtUintV_eq_repr (n : Nat) : fmtUintV n = Nat.repr n := by
  rw [fmtUintV]
  by_cases hn : n = 0
  · subst hn; rfl
  · rw [if_neg hn, Nat.repr, Nat.toDigits,
      toDigitsCore_eq_decDigitsRevAux (n + 1) n [] (Nat.lt_succ_self n)
        (Nat.pos_of_ne_zero hn)]
    have hmap : (decDigitsRevAux (n + 1) n).reverse.map decDigitChar =
        (decDigitsRevAux (n + 1) n).reverse.map Nat.digitChar := by
      apply List.map_congr_left
      intro d hd
      exact decDigitChar_eq_digitChar d
        (decDigitsRevAux_lt_ten (n + 1) n d (List.mem_reverse.mp hd))
    rw [hmap]
    simp [List.asString]

/-- The `%v` model and the `%d` model render every `Nat` identically. -/
theorem fmtUintV_eq_fmtUintD (n : Nat) : fmtUintV n = fmtUintD n := by
  rw [fmtUintV_eq_repr, fmtUintD_eq_repr]

/-! ### JSON values

A model of the JSON documents produced by Go's `encoding/json`. -/

/-- JSON value tree. -/
inductive Json where
  | null
  | jbool (b : Bool)
  | jint (n : Int)
  | jstr (s : String)
  | jarr (xs : List Json)
  | jobj (fields : List (String × Json))

/-- Does a JSON object have a top-level key `k`? -/
def Json.hasKey : Json → String → Bool
  | Json.jobj fields, k => fields.any (fun f => f.1 == k)
  | _, _ => false

/-- One field of a marshalled Go struct: emitted unless its `omitempty`
condition holds.  Per the `encoding/json` documentation the empty values are
`false`, `0`, a nil pointer, and any array, slice, map, or string of length
zero; struct values are never empty. -/
def jsonField (omitted : Bool) (k : String) (v : Json) : List (String × Json) :=
  if omitted then [] else [(k, v)]

/-! ### Entity types

`Product`, `ProductOption`, the four envelope types, `Customer` and
`CustomerSearchOptions` are translated from `product.go` / `customer.go`.
`uint64` becomes `Nat`, Go `int` becomes `Int`, pointers become `Option`,
slices become `List`.  `time.Time`, `decimal.Decimal`, `Metafield`, `Image`,
`Variant` and `CustomerAddress` belong to code outside the excerpt and are
modelled from the spec. -/

/-- Modelled from the spec: a `time.Time` timestamp, abstracted by the
RFC 3339 string `encoding/json` renders it as. -/
structure GoTime where
  rfc3339 : String

/-- Modelled from the spec: `decimal.Decimal`, the arbitrary-precision
decimal used for the customer's monetary total (spec §3), abstracted by its
decimal string rendering, which is all serialization observes. -/
structure GoDecimal where
  render : String

/-- Modelled from the spec: a `Metafield` is "an arbitrary key/value
annotation attached to a parent resource" (spec glossary); the type itself
is owned by a collaborator module outside the excerpt.  Modelled as a flat
record in the repository's entity convention. -/
structure Metafield where
  ID : Nat
  Namespace : String
  Key : String
  Value : String

/-- Modelled from the spec: a product `Image` (spec §3 lists `image`,
`images[]` among the `Product` fields).  Defined outside the excerpt; what
matters for the claims is that `product.go` declares the `image` field with
the plain struct type `Image`, not a pointer, and the spec's data model
presents images as flat records.  Fields follow the repository's
entity convention (snake_case `omitempty` scalar fields). -/
structure Image where
  ID : Int
  ProductID : Int
  Position : Int
  CreatedAt : Option GoTime
  UpdatedAt : Option GoTime
  Width : Int
  Height : Int
  Src : String
  VariantIds : List Int

/-- Modelled from the spec: a product `Variant` (spec §3: `variants[]`),
defined outside the excerpt.  Flat record; its exact field set is never
inspected by the claims. -/
structure Variant where
  ID : Nat
  ProductID : Int
  Title : String
  Sku : String
  Position : Int
  Price : Option GoDecimal

/-- Modelled from the spec: a `CustomerAddress` (spec §3: `addresses[]`),
defined outside the excerpt.  Flat record; its exact field set is never
inspected by the claims.  In `customer.go` the elements are pointers; the
claims never marshal an address, so the pointer indirection is dropped. -/
structure CustomerAddress where
  ID : Nat
  FirstName : String
  LastName : String
  Company : String
  Address1 : String
  Address2 : String
  City : String
  Province : String
  Country : String
  Zip : String
  Phone : String

/-- Alias for the `Image` type, needed inside `Product` where the field
named `Image` shadows the type name. -/
abbrev ImageType := Image

/-- The options provided by Shopify (`product.go`). -/
structure ProductOption where
  ID : Nat
  ProductID : Int
  Name : String
  Position : Int
  Values : List String

/-- A Shopify product (`product.go`). -/
structure Product where
  ID : Nat
  Title : String
  BodyHTML : String
  Vendor : String
  ProductType : String
  Handle : String
  CreatedAt : Option GoTime
  UpdatedAt : Option GoTime
  PublishedAt : Option GoTime
  PublishedScope : String
  Tags : String
  Options : List ProductOption
  Variants : List Variant
  Image : Image
  Images : List ImageType
  TemplateSuffix : String
  MetafieldsGlobalTitleTag : String
  MetafieldsGlobalDescriptionTag : String
  Metafields : List Metafield

/-- A Shopify customer (`customer.go`). -/
structure Customer where
  ID : Nat
  Email : String
  FirstName : String
  LastName : String
  State : String
  Note : String
  VerifiedEmail : Bool
  MultipassIdentifier : String
  OrdersCount : Int
  TaxExempt : Bool
  TotalSpent : Option GoDecimal
  Phone : String
  Tags : String
  LastOrderId : Int
  LastOrderName : String
  AcceptsMarketing : Bool
  DefaultAddress : Option CustomerAddress
  Addresses : List CustomerAddress
  CreatedAt : Option GoTime
  UpdatedAt : Option GoTime
  Metafields : List Metafield

/-- The result from the `products/X.json` endpoint (`product.go`). -/
structure ProductResource where
  Product : Option Product

/-- The result from the `products.json` endpoint (`product.go`). -/
structure ProductsResource where
  Products : List Product

/-- The result from the `customers/X.json` endpoint (`customer.go`). -/
structure CustomerResource where
  Customer : Option Customer

/-- The result from the `customers.json` endpoint (`customer.go`). -/
structure CustomersResource where
  Customers : List Customer

/-- Modelled from the spec: singular envelope for one metafield, in the
repository's envelope convention (spec §6). -/
structure MetafieldResource where
  Metafield : Option Metafield

/-- Modelled from the spec: plural envelope for a metafield list. -/
structure MetafieldsResource where
  Metafields : List Metafield

/-- The options available when searching for a customer (`customer.go`). -/
structure CustomerSearchOptions where
  Page : Int
  Limit : Int
  Fields : String
  Order : String
  Query : String

/-! ### Marshalling

Model of `encoding/json.Marshal` applied to the entity types with the
struct tags of the source.  Fields are emitted in struct order; a field
carrying `omitempty` is skipped when its value is empty in the sense of the
`encoding/json` documentation (`false`, `0`, nil pointer, zero-length
slice or string).  A struct-typed field is never empty, so `omitempty` has
no effect on it. -/

/-- Marshal a `*time.Time`: a nil pointer renders as `null`, otherwise the
RFC 3339 string. -/
def marshalOptTime : Option GoTime → Json
  | none => Json.null
  | some t => Json.jstr t.rfc3339

/-- Marshal a `decimal.Decimal` (shopspring): its decimal string. -/
def marshalDecimal (d : GoDecimal) : Json := Json.jstr d.render

/-- Marshal a `Metafield` (modelled from the spec). -/
def marshalMetafield (m : Metafield) : Json :=
  Json.jobj (
    jsonField (m.ID == 0) "id" (Json.jint (Int.ofNat m.ID)) ++
    jsonField (m.Namespace == "") "namespace" (Json.jstr m.Namespace) ++
    jsonField (m.Key == "") "key" (Json.jstr m.Key) ++
    jsonField (m.Value == "") "value" (Json.jstr m.Value))

/-- Marshal an `Image` (modelled from the spec): every field carries
`omitempty` and every field's type is one `omitempty` acts on, so the zero
`Image` marshals to the empty object. -/
def marshalImage (im : Image) : Json :=
  Json.jobj (
    jsonField (im.ID == 0) "id" (Json.jint im.ID) ++
    jsonField (im.ProductID == 0) "product_id" (Json.jint im.ProductID) ++
    jsonField (im.Position == 0) "position" (Json.jint im.Position) ++
    jsonField im.CreatedAt.isNone "created_at" (marshalOptTime im.CreatedAt) ++
    jsonField im.UpdatedAt.isNone "updated_at" (marshalOptTime im.UpdatedAt) ++
    jsonField (im.Width == 0) "width" (Json.jint im.Width) ++
    jsonField (im.Height == 0) "height" (Json.jint im.Height) ++
    jsonField (im.Src == "") "src" (Json.jstr im.Src) ++
    jsonField im.VariantIds.isEmpty "variant_ids"
      (Json.jarr (im.VariantIds.map Json.jint)))

/-- Marshal a `Variant` (modelled from the spec). -/
def marshalVariant (v : Variant) : Json :=
  Json.jobj (
    jsonField (v.ID == 0) "id" (Json.jint (Int.ofNat v.ID)) ++
    jsonField (v.ProductID == 0) "product_id" (Json.jint v.ProductID) ++
    jsonField (v.Title == "") "title" (Json.jstr v.Title) ++
    jsonField (v.Sku == "") "sku" (Json.jstr v.Sku) ++
    jsonField (v.Position == 0) "position" (Json.jint v.Position) ++
    jsonField v.Price.isNone "price"
      (match v.Price with | none => Json.null | some d => marshalDecimal d))

/-- Marshal a `ProductOption` (`product.go`). -/
def marshalProductOption (o : ProductOption) : Json :=
  Json.jobj (
    jsonField (o.ID == 0) "id" (Json.jint (Int.ofNat o.ID)) ++
    jsonField (o.ProductID == 0) "product_id" (Json.jint o.ProductID) ++
    jsonField (o.Name == "") "name" (Json.jstr o.Name) ++
    jsonField (o.Position == 0) "position" (Json.jint o.Position) ++
    jsonField o.Values.isEmpty "values" (Json.jarr (o.Values.map Json.jstr)))

/-- Marshal a `CustomerAddress` (modelled from the spec). -/
def marshalCustomerAddress (a : CustomerAddress) : Json :=
  Json.jobj (
    jsonField (a.ID == 0) "id" (Json.jint (Int.ofNat a.ID)) ++
    jsonField (a.FirstName == "") "first_name" (Json.jstr a.FirstName) ++
    jsonField (a.LastName == "") "last_name" (Json.jstr a.LastName) ++
    jsonField (a.Company == "") "company" (Json.jstr a.Company) ++
    jsonField (a.Address1 == "") "address1" (Json.jstr a.Address1) ++
    jsonField (a.Address2 == "") "address2" (Json.jstr a.Address2) ++
    jsonField (a.City == "") "city" (Json.jstr a.City) ++
    jsonField (a.Province == "") "province" (Json.jstr a.Province) ++
    jsonField (a.Country == "") "country" (Json.jstr a.Country) ++
    jsonField (a.Zip == "") "zip" (Json.jstr a.Zip) ++
    jsonField (a.Phone == "") "phone" (Json.jstr a.Phone))

/-- Marshal a `Product` with the struct tags of `product.go`.  Every field
carries `omitempty`; it is effective on every field except `Image`, whose
type is the plain struct `Image` — `encoding/json` never treats a struct
value as empty, so the `image` key is always emitted. -/
def marshalProduct (p : Product) : Json :=
  Json.jobj (
    jsonField (p.ID == 0) "id" (Json.jint (Int.ofNat p.ID)) ++
    jsonField (p.Title == "") "title" (Json.jstr p.Title) ++
    jsonField (p.BodyHTML == "") "body_html" (Json.jstr p.BodyHTML) ++
    jsonField (p.Vendor == "") "vendor" (Json.jstr p.Vendor) ++
    jsonField (p.ProductType == "") "product_type" (Json.jstr p.ProductType) ++
    jsonField (p.Handle == "") "handle" (Json.jstr p.Handle) ++
    jsonField p.CreatedAt.isNone "created_at" (marshalOptTime p.CreatedAt) ++
    jsonField p.UpdatedAt.isNone "updated_at" (marshalOptTime p.UpdatedAt) ++
    jsonField p.PublishedAt.isNone "published_at" (marshalOptTime p.PublishedAt) ++
    jsonField (p.PublishedScope == "") "published_scope" (Json.jstr p.PublishedScope) ++
    jsonField (p.Tags == "") "tags" (Json.jstr p.Tags) ++
    jsonField p.Options.isEmpty "options" (Json.jarr (p.Options.map marshalProductOption)) ++
    jsonField p.Variants.isEmpty "variants" (Json.jarr (p.Variants.map marshalVariant)) ++
    [("image", marshalImage p.Image)] ++
    jsonField p.Images.isEmpty "images" (Json.jarr (p.Images.map marshalImage)) ++
    jsonField (p.TemplateSuffix == "") "template_suffix" (Json.jstr p.TemplateSuffix) ++
    jsonField (p.MetafieldsGlobalTitleTag == "") "metafields_global_title_tag"
      (Json.jstr p.MetafieldsGlobalTitleTag) ++
    jsonField (p.MetafieldsGlobalDescriptionTag == "") "metafields_global_description_tag"
      (Json.jstr p.MetafieldsGlobalDescriptionTag) ++
    jsonField p.Metafields.isEmpty "metafields" (Json.jarr (p.Metafields.map marshalMetafield)))

/-- Marshal a `Customer` with the struct tags of `customer.go`.  Every field
carries `omitempty` and every field's type is one `omitempty` acts on
(numbers, strings, bools, pointers, slices), so a zero field is omitted. -/
def marshalCustomer (c : Customer) : Json :=
  Json.jobj (
    jsonField (c.ID == 0) "id" (Json.jint (Int.ofNat c.ID)) ++
    jsonField (c.Email == "") "email" (Json.jstr c.Email) ++
    jsonField (c.FirstName == "") "first_name" (Json.jstr c.FirstName) ++
    jsonField (c.LastName == "") "last_name" (Json.jstr c.LastName) ++
    jsonField (c.State == "") "state" (Json.jstr c.State) ++
    jsonField (c.Note == "") "note" (Json.jstr c.Note) ++
    jsonField (c.VerifiedEmail == false) "verified_email" (Json.jbool c.VerifiedEmail) ++
    jsonField (c.MultipassIdentifier == "") "multipass_identifier"
      (Json.jstr c.MultipassIdentifier) ++
    jsonField (c.OrdersCount == 0) "orders_count" (Json.jint c.OrdersCount) ++
    jsonField (c.TaxExempt == false) "tax_exempt" (Json.jbool c.TaxExempt) ++
    jsonField c.TotalSpent.isNone "total_spent"
      (match c.TotalSpent with | none => Json.null | some d => marshalDecimal d) ++
    jsonField (c.Phone == "") "phone" (Json.jstr c.Phone) ++
    jsonField (c.Tags == "") "tags" (Json.jstr c.Tags) ++
    jsonField (c.LastOrderId == 0) "last_order_id" (Json.jint c.LastOrderId) ++
    jsonField (c.LastOrderName == "") "last_order_name" (Json.jstr c.LastOrderName) ++
    jsonField (c.AcceptsMarketing == false) "accepts_marketing" (Json.jbool c.AcceptsMarketing) ++
    jsonField c.DefaultAddress.isNone "default_address"
      (match c.DefaultAddress with | none => Json.null | some a => marshalCustomerAddress a) ++
    jsonField c.Addresses.isEmpty "addresses"
      (Json.jarr (c.Addresses.map marshalCustomerAddress)) ++
    jsonField c.CreatedAt.isNone "created_at" (marshalOptTime c.CreatedAt) ++
    jsonField c.UpdatedAt.isNone "updated_at" (marshalOptTime c.UpdatedAt) ++
    jsonField c.Metafields.isEmpty "metafields" (Json.jarr (c.Metafields.map marshalMetafield)))

/-- Marshal a `ProductResource` envelope: the `product` key carries no
`omitempty`, a nil pointer marshals to `null`. -/
def marshalProductResource (w : ProductResource) : Json :=
  Json.jobj [("product", match w.Product with
    | none => Json.null
    | some p => marshalProduct p)]

/-- Marshal a `CustomerResource` envelope. -/
def marshalCustomerResource (w : CustomerResource) : Json :=
  Json.jobj [("customer", match w.Customer with
    | none => Json.null
    | some c => marshalCustomer c)]

/-- Marshal a `MetafieldResource` envelope (modelled from the spec). -/
def marshalMetafieldResource (w : MetafieldResource) : Json :=
  Json.jobj [("metafield", match w.Metafield with
    | none => Json.null
    | some m => marshalMetafield m)]

/-! ### Zero values

The Go zero value of each type reached by `new(...)` or by an
all-fields-unset literal. -/

/-- Zero value of `Image`. -/
def Image.zero : Image := ⟨0, 0, 0, none, none, 0, 0, "", []⟩

/-- Zero value of `Product`: every field unset. -/
def Product.zero : Product :=
  ⟨0, "", "", "", "", "", none, none, none, "", "", [], [], Image.zero, [],
    "", "", "", []⟩

/-- Zero value of `Customer`: every field unset. -/
def Customer.zero : Customer :=
  ⟨0, "", "", "", "", "", false, "", 0, false, none, "", "", 0, "", false,
    none, [], none, none, []⟩

/-- Zero value of `ProductResource`, as built by `new(ProductResource)`. -/
def ProductResource.zero : ProductResource := ⟨none⟩

/-- Zero value of `ProductsResource`, as built by `new(ProductsResource)`. -/
def ProductsResource.zero : ProductsResource := ⟨[]⟩

/-- Zero value of `CustomerResource`, as built by `new(CustomerResource)`. -/
def CustomerResource.zero : CustomerResource := ⟨none⟩

/-- Zero value of `CustomersResource`, as built by `new(CustomersResource)`. -/
def CustomersResource.zero : CustomersResource := ⟨[]⟩

/-- Zero value of `MetafieldResource`. -/
def MetafieldResource.zero : MetafieldResource := ⟨none⟩

/-- Zero value of `MetafieldsResource`. -/
def MetafieldsResource.zero : MetafieldsResource := ⟨[]⟩

/-! ### The HTTP Client collaborator and call outcomes -/

/-- A Go `error` value, abstracted by its message. -/
abbrev GoErr := String

/-- The value passed through the `options interface{}` parameters.  The
operations never inspect it; it is forwarded to the HTTP Client verbatim. -/
inductive Options where
  | nil
  | search (o : CustomerSearchOptions)
  | raw (s : String)

/-- Modelled from the spec: the outcome of one HTTP Client primitive call
that decodes into a destination of type `α`.  Per spec §7 a call either
succeeds (`ok`, nil error, destination filled with the decoded response) or
fails (`fail`, non-nil error); on failure the destination keeps the zero
value it was allocated with, since failure yields no partial results. -/
inductive CallOutcome (α : Type) where
  | ok (filled : α)
  | fail (e : GoErr)

/-- The error component of a call outcome: `nil` on success. -/
def CallOutcome.err {α : Type} : CallOutcome α → Option GoErr
  | .ok _ => none
  | .fail e => some e

/-- The destination after the call: the decoded value on success, the zero
value `z` it started from on failure. -/
def CallOutcome.dest {α : Type} (z : α) : CallOutcome α → α
  | .ok filled => filled
  | .fail _ => z

/-- Modelled from the spec: the external HTTP `Client` collaborator
(spec §6) with primitives `Get(path, dest, options)`, `Post(path, body,
dest)`, `Put(path, body, dest)`, `Delete(path)`, `Count(path, options)`.
The Go primitives are generic in the destination; here they are
monomorphised per destination type.  Each field maps the call's arguments
to the outcome the remote interaction produced. -/
structure Client where
  getProduct : String → Options → CallOutcome ProductResource
  getProducts : String → Options → CallOutcome ProductsResource
  postProduct : String → ProductResource → CallOutcome ProductResource
  putProduct : String → ProductResource → CallOutcome ProductResource
  getCustomer : String → Options → CallOutcome CustomerResource
  getCustomers : String → Options → CallOutcome CustomersResource
  postCustomer : String → CustomerResource → CallOutcome CustomerResource
  putCustomer : String → CustomerResource → CallOutcome CustomerResource
  getMetafield : String → Options → CallOutcome MetafieldResource
  getMetafields : String → Options → CallOutcome MetafieldsResource
  postMetafield : String → MetafieldResource → CallOutcome MetafieldResource
  putMetafield : String → MetafieldResource → CallOutcome MetafieldResource
  deleteCall : String → Option GoErr
  countCall : String → Options → CallOutcome Int

/-- One HTTP request as observed on the wire: verb, path, and marshalled
body for `Post`/`Put`. -/
inductive HttpReq where
  | get (path : String)
  | post (path : String) (body : Json)
  | put (path : String) (body : Json)
  | delete (path : String)
  | count (path : String)

/-- What one resource-client operation returns, together with the requests
it issued: the Go result value, the Go error, and the request trace. -/
structure OpResult (α : Type) where
  res : α
  err : Option GoErr
  reqs : List HttpReq

/-! ### Path construction

Models of the `fmt.Sprintf` calls of the source, one per format string. -/

/-- `fmt.Sprintf("%s.json", s)`. -/
def sprintf_s_json (s : String) : String := s ++ ".json"

/-- `fmt.Sprintf("%s/count.json", s)`. -/
def sprintf_s_count_json (s : String) : String := s ++ "/count.json"

/-- `fmt.Sprintf("%s/search.json", s)`. -/
def sprintf_s_search_json (s : String) : String := s ++ "/search.json"

/-- `fmt.Sprintf("%s/%d.json", s, n)` with `n : uint64`. -/
def sprintf_s_d_json (s : String) (n : Nat) : String :=
  s ++ "/" ++ fmtUintD n ++ ".json"

/-- `fmt.Sprintf("%s/%v.json", s, n)` with `n : uint64`. -/
def sprintf_s_v_json (s : String) (n : Nat) : String :=
  s ++ "/" ++ fmtUintV n ++ ".json"

/-- `const productsBasePath` (`product.go`). -/
def productsBasePath : String := "admin/products"

/-- `const productsResourceName` (`product.go`). -/
def productsResourceName : String := "products"

/-- `const customersBasePath` (`customer.go`). -/
def customersBasePath : String := "admin/customers"

/-- `const customersResourceName` (`customer.go`). -/
def customersResourceName : String := "customers"

/-! ### Service structures and operations

Each Go method body is translated line by line: build the path, allocate
the zero-valued destination, call the client primitive, return the envelope
field and the error.  The request trace records the single primitive call
the body makes. -/

/-- Alias for `List Metafield`, needed in signatures inside the service
namespaces where the method name `List` shadows the list type. -/
abbrev MetafieldList := List Metafield

/-- Alias for `List Customer`, same shadowing concern. -/
abbrev CustomerList := List Customer

/-- Handles communication with the product related methods (`product.go`). -/
structure ProductServiceOp where
  client : Client

/-- Handles communication with the customer related methods (`customer.go`). -/
structure CustomerServiceOp where
  client : Client

/-- Modelled from the spec: the Metafield Helper (spec §4.2), "constructed
with (resource-type name, resource instance id) and the shared HTTP Client",
performing CRUD + list/count against
`<resource-type>/<resource-id>/metafields[.json | /<metafield-id>.json]`
(spec §6).  The field names follow the construction sites in `product.go` /
`customer.go`: `{client: ..., resource: ..., resourceID: ...}`. -/
structure MetafieldServiceOp where
  client : Client
  resource : String
  resourceID : Nat

/-- Modelled from the spec: metafield List — GET the nested collection. -/
def MetafieldServiceOp.List (s : MetafieldServiceOp) (options : Options) :
    OpResult (List Metafield) :=
  let path := s.resource ++ "/" ++ fmtUintD s.resourceID ++ "/metafields.json"
  let outcome := s.client.getMetafields path options
  { res := (outcome.dest MetafieldsResource.zero).Metafields
    err := outcome.err
    reqs := [HttpReq.get path] }

/-- Modelled from the spec: metafield Count — GET the nested count path. -/
def MetafieldServiceOp.Count (s : MetafieldServiceOp) (options : Options) :
    OpResult Int :=
  let path := s.resource ++ "/" ++ fmtUintD s.resourceID ++ "/metafields/count.json"
  let outcome := s.client.countCall path options
  { res := outcome.dest 0
    err := outcome.err
    reqs := [HttpReq.count path] }

/-- Modelled from the spec: metafield Get — GET one nested item. -/
def MetafieldServiceOp.Get (s : MetafieldServiceOp) (metafieldID : Nat)
    (options : Options) : OpResult (Option Metafield) :=
  let path := s.resource ++ "/" ++ fmtUintD s.resourceID ++ "/metafields/" ++
    fmtUintD metafieldID ++ ".json"
  let outcome := s.client.getMetafield path options
  { res := (outcome.dest MetafieldResource.zero).Metafield
    err := outcome.err
    reqs := [HttpReq.get path] }

/-- Modelled from the spec: metafield Create — POST the singular envelope
to the nested collection. -/
def MetafieldServiceOp.Create (s : MetafieldServiceOp) (metafield : Metafield) :
    OpResult (Option Metafield) :=
  let path := s.resource ++ "/" ++ fmtUintD s.resourceID ++ "/metafields.json"
  let wrappedData : MetafieldResource := { Metafield := some metafield }
  let outcome := s.client.postMetafield path wrappedData
  { res := (outcome.dest MetafieldResource.zero).Metafield
    err := outcome.err
    reqs := [HttpReq.post path (marshalMetafieldResource wrappedData)] }

/-- Modelled from the spec: metafield Update — PUT the singular envelope to
the nested item path taken from the metafield's own id. -/
def MetafieldServiceOp.Update (s : MetafieldServiceOp) (metafield : Metafield) :
    OpResult (Option Metafield) :=
  let path := s.resource ++ "/" ++ fmtUintD s.resourceID ++ "/metafields/" ++
    fmtUintD metafield.ID ++ ".json"
  let wrappedData : MetafieldResource := { Metafield := some metafield }
  let outcome := s.client.putMetafield path wrappedData
  { res := (outcome.dest MetafieldResource.zero).Metafield
    err := outcome.err
    reqs := [HttpReq.put path (marshalMetafieldResource wrappedData)] }

/-- Modelled from the spec: metafield Delete — DELETE one nested item. -/
def MetafieldServiceOp.Delete (s : MetafieldServiceOp) (metafieldID : Nat) :
    OpResult Unit :=
  let path := s.resource ++ "/" ++ fmtUintD s.resourceID ++ "/metafields/" ++
    fmtUintD metafieldID ++ ".json"
  { res := ()
    err := s.client.deleteCall path
    reqs := [HttpReq.delete path] }

/-- List products (`product.go` line 75). -/
def ProductServiceOp.List (s : ProductServiceOp) (options : Options) :
    OpResult (List Product) :=
  let path := sprintf_s_json productsBasePath
  let outcome := s.client.getProducts path options
  { res := (outcome.dest ProductsResource.zero).Products
    err := outcome.err
    reqs := [HttpReq.get path] }

/-- Count products (`product.go` line 83). -/
def ProductServiceOp.Count (s : ProductServiceOp) (options : Options) :
    OpResult Int :=
  let path := sprintf_s_count_json productsBasePath
  let outcome := s.client.countCall path options
  { res := outcome.dest 0
    err := outcome.err
    reqs := [HttpReq.count path] }

/-- Get individual product (`product.go` line 89). -/
def ProductServiceOp.Get (s : ProductServiceOp) (productID : Nat)
    (options : Options) : OpResult (Option Product) :=
  let path := sprintf_s_d_json productsBasePath productID
  let outcome := s.client.getProduct path options
  { res := (outcome.dest ProductResource.zero).Product
    err := outcome.err
    reqs := [HttpReq.get path] }

/-- Create a new product (`product.go` line 97). -/
def ProductServiceOp.Create (s : ProductServiceOp) (product : Product) :
    OpResult (Option Product) :=
  let path := sprintf_s_json productsBasePath
  let wrappedData : ProductResource := { Product := some product }
  let outcome := s.client.postProduct path wrappedData
  { res := (outcome.dest ProductResource.zero).Product
    err := outcome.err
    reqs := [HttpReq.post path (marshalProductResource wrappedData)] }

/-- Update an existing product (`product.go` line 106). -/
def ProductServiceOp.Update (s : ProductServiceOp) (product : Product) :
    OpResult (Option Product) :=
  let path := sprintf_s_d_json productsBasePath product.ID
  let wrappedData : ProductResource := { Product := some product }
  let outcome := s.client.putProduct path wrappedData
  { res := (outcome.dest ProductResource.zero).Product
    err := outcome.err
    reqs := [HttpReq.put path (marshalProductResource wrappedData)] }

/-- Delete an existing product (`product.go` line 115). -/
def ProductServiceOp.Delete (s : ProductServiceOp) (productID : Nat) :
    OpResult Unit :=
  let path := sprintf_s_d_json productsBasePath productID
  { res := ()
    err := s.client.deleteCall path
    reqs := [HttpReq.delete path] }

/-- List metafields for a product (`product.go` line 120). -/
def ProductServiceOp.ListMetafields (s : ProductServiceOp) (productID : Nat)
    (options : Options) : OpResult MetafieldList :=
  let metafieldService : MetafieldServiceOp :=
    { client := s.client, resource := productsResourceName, resourceID := productID }
  metafieldService.List options

/-- Count metafields for a product (`product.go` line 126). -/
def ProductServiceOp.CountMetafields (s : ProductServiceOp) (productID : Nat)
    (options : Options) : OpResult Int :=
  let metafieldService : MetafieldServiceOp :=
    { client := s.client, resource := productsResourceName, resourceID := productID }
  metafieldService.Count options

/-- Get individual metafield for a product (`product.go` line 132). -/
def ProductServiceOp.GetMetafield (s : ProductServiceOp) (productID : Nat)
    (metafieldID : Nat) (options : Options) : OpResult (Option Metafield) :=
  let metafieldService : MetafieldServiceOp :=
    { client := s.client, resource := productsResourceName, resourceID := productID }
  metafieldService.Get metafieldID options

/-- Create a new metafield for a product (`product.go` line 138). -/
def ProductServiceOp.CreateMetafield (s : ProductServiceOp) (productID : Nat)
    (metafield : Metafield) : OpResult (Option Metafield) :=
  let metafieldService : MetafieldServiceOp :=
    { client := s.client, resource := productsResourceName, resourceID := productID }
  metafieldService.Create metafield

/-- Update an existing metafield for a product (`product.go` line 144). -/
def ProductServiceOp.UpdateMetafield (s : ProductServiceOp) (productID : Nat)
    (metafield : Metafield) : OpResult (Option Metafield) :=
  let metafieldService : MetafieldServiceOp :=
    { client := s.client, resource := productsResourceName, resourceID := productID }
  metafieldService.Update metafield

/-- Delete an existing metafield for a product (`product.go` line 150). -/
def ProductServiceOp.DeleteMetafield (s : ProductServiceOp) (productID : Nat)
    (metafieldID : Nat) : OpResult Unit :=
  let metafieldService : MetafieldServiceOp :=
    { client := s.client, resource := productsResourceName, resourceID := productID }
  metafieldService.Delete metafieldID

/-- List customers (`customer.go` line 85). -/
def CustomerServiceOp.List (s : CustomerServiceOp) (options : Options) :
    OpResult (List Customer) :=
  let path := sprintf_s_json customersBasePath
  let outcome := s.client.getCustomers path options
  { res := (outcome.dest CustomersResource.zero).Customers
    err := outcome.err
    reqs := [HttpReq.get path] }

/-- Count customers (`customer.go` line 93). -/
def CustomerServiceOp.Count (s : CustomerServiceOp) (options : Options) :
    OpResult Int :=
  let path := sprintf_s_count_json customersBasePath
  let outcome := s.client.countCall path options
  { res := outcome.dest 0
    err := outcome.err
    reqs := [HttpReq.count path] }

/-- Get customer (`customer.go` line 99); note the `%v` verb in the path. -/
def CustomerServiceOp.Get (s : CustomerServiceOp) (customerID : Nat)
    (options : Options) : OpResult (Option Customer) :=
  let path := sprintf_s_v_json customersBasePath customerID
  let outcome := s.client.getCustomer path options
  { res := (outcome.dest CustomerResource.zero).Customer
    err := outcome.err
    reqs := [HttpReq.get path] }

/-- Create a new customer (`customer.go` line 107). -/
def CustomerServiceOp.Create (s : CustomerServiceOp) (customer : Customer) :
    OpResult (Option Customer) :=
  let path := sprintf_s_json customersBasePath
  let wrappedData : CustomerResource := { Customer := some customer }
  let outcome := s.client.postCustomer path wrappedData
  { res := (outcome.dest CustomerResource.zero).Customer
    err := outcome.err
    reqs := [HttpReq.post path (marshalCustomerResource wrappedData)] }

/-- Update an existing customer (`customer.go` line 116). -/
def CustomerServiceOp.Update (s : CustomerServiceOp) (customer : Customer) :
    OpResult (Option Customer) :=
  let path := sprintf_s_d_json customersBasePath customer.ID
  let wrappedData : CustomerResource := { Customer := some customer }
  let outcome := s.client.putCustomer path wrappedData
  { res := (outcome.dest CustomerResource.zero).Customer
    err := outcome.err
    reqs := [HttpReq.put path (marshalCustomerResource wrappedData)] }

/-- Delete an existing customer (`customer.go` line 125). -/
def CustomerServiceOp.Delete (s : CustomerServiceOp) (customerID : Nat) :
    OpResult Unit :=
  let path := sprintf_s_d_json customersBasePath customerID
  { res := ()
    err := s.client.deleteCall path
    reqs := [HttpReq.delete path] }

/-- Search customers (`customer.go` line 131). -/
def CustomerServiceOp.Search (s : CustomerServiceOp) (options : Options) :
    OpResult CustomerList :=
  let path := sprintf_s_search_json customersBasePath
  let outcome := s.client.getCustomers path options
  { res := (outcome.dest CustomersResource.zero).Customers
    err := outcome.err
    reqs := [HttpReq.get path] }

/-- List metafields for a customer (`customer.go` line 139). -/
def CustomerServiceOp.ListMetafields (s : CustomerServiceOp) (customerID : Nat)
    (options : Options) : OpResult MetafieldList :=
  let metafieldService : MetafieldServiceOp :=
    { client := s.client, resource := customersResourceName, resourceID := customerID }
  metafieldService.List options

/-- Count metafields for a customer (`customer.go` line 145). -/
def CustomerServiceOp.CountMetafields (s : CustomerServiceOp) (customerID : Nat)
    (options : Options) : OpResult Int :=
  let metafieldService : MetafieldServiceOp :=
    { client := s.client, resource := customersResourceName, resourceID := customerID }
  metafieldService.Count options

/-- Get individual metafield for a customer (`customer.go` line 151). -/
def CustomerServiceOp.GetMetafield (s : CustomerServiceOp) (customerID : Nat)
    (metafieldID : Nat) (options : Options) : OpResult (Option Metafield) :=
  let metafieldService : MetafieldServiceOp :=
    { client := s.client, resource := customersResourceName, resourceID := customerID }
  metafieldService.Get metafieldID options

/-- Create a new metafield for a customer (`customer.go` line 157). -/
def CustomerServiceOp.CreateMetafield (s : CustomerServiceOp) (customerID : Nat)
    (metafield : Metafield) : OpResult (Option Metafield) :=
  let metafieldService : MetafieldServiceOp :=
    { client := s.client, resource := customersResourceName, resourceID := customerID }
  metafieldService.Create metafield

/-- Update an existing metafield for a customer (`customer.go` line 163). -/
def CustomerServiceOp.UpdateMetafield (s : CustomerServiceOp) (customerID : Nat)
    (metafield : Metafield) : OpResult (Option Metafield) :=
  let metafieldService : MetafieldServiceOp :=
    { client := s.client, resource := customersResourceName, resourceID := customerID }
  metafieldService.Update metafield

/-- Delete an existing metafield for a customer (`customer.go` line 169). -/
def CustomerServiceOp.DeleteMetafield (s : CustomerServiceOp) (customerID : Nat)
    (metafieldID : Nat) : OpResult Unit :=
  let metafieldService : MetafieldServiceOp :=
    { client := s.client, resource := customersResourceName, resourceID := customerID }
  metafieldService.Delete metafieldID

/-! ### Helper lemmas and concrete clients -/

/-- On a failed call the destination keeps the zero value it started from. -/
theorem CallOutcome.dest_of_err_eq_some {α : Type} (z : α) (o : CallOutcome α)
    (e : GoErr) (h : o.err = some e) : o.dest z = z := by
  cases o with
  | ok filled => simp [CallOutcome.err] at h
  | fail e2 => rfl

/-- A concrete client whose every primitive fails with the error `"boom"`. -/
def failClient : Client where
  getProduct := fun _ _ => CallOutcome.fail "boom"
  getProducts := fun _ _ => CallOutcome.fail "boom"
  postProduct := fun _ _ => CallOutcome.fail "boom"
  putProduct := fun _ _ => CallOutcome.fail "boom"
  getCustomer := fun _ _ => CallOutcome.fail "boom"
  getCustomers := fun _ _ => CallOutcome.fail "boom"
  postCustomer := fun _ _ => CallOutcome.fail "boom"
  putCustomer := fun _ _ => CallOutcome.fail "boom"
  getMetafield := fun _ _ => CallOutcome.fail "boom"
  getMetafields := fun _ _ => CallOutcome.fail "boom"
  postMetafield := fun _ _ => CallOutcome.fail "boom"
  putMetafield := fun _ _ => CallOutcome.fail "boom"
  deleteCall := fun _ => some "boom"
  countCall := fun _ _ => CallOutcome.fail "boom"

/-- A concrete client whose every primitive succeeds; the singular envelope
fields of the `Get` responses stay unset, `Post`/`Put` responses carry the
zero entity, `Count` answers `7`. -/
def okClient : Client where
  getProduct := fun _ _ => CallOutcome.ok ⟨none⟩
  getProducts := fun _ _ => CallOutcome.ok ⟨[]⟩
  postProduct := fun _ _ => CallOutcome.ok ⟨some Product.zero⟩
  putProduct := fun _ _ => CallOutcome.ok ⟨some Product.zero⟩
  getCustomer := fun _ _ => CallOutcome.ok ⟨none⟩
  getCustomers := fun _ _ => CallOutcome.ok ⟨[]⟩
  postCustomer := fun _ _ => CallOutcome.ok ⟨some Customer.zero⟩
  putCustomer := fun _ _ => CallOutcome.ok ⟨some Customer.zero⟩
  getMetafield := fun _ _ => CallOutcome.ok ⟨none⟩
  getMetafields := fun _ _ => CallOutcome.ok ⟨[]⟩
  postMetafield := fun _ _ => CallOutcome.ok ⟨none⟩
  putMetafield := fun _ _ => CallOutcome.ok ⟨none⟩
  deleteCall := fun _ => none
  countCall := fun _ _ => CallOutcome.ok 7

/-- A concrete client acting as the fake server of spec §8: `Count` answers
`7` exactly at `admin/products/count.json` and fails elsewhere. -/
def client7 : Client where
  getProduct := fun _ _ => CallOutcome.fail "not found"
  getProducts := fun _ _ => CallOutcome.fail "not found"
  postProduct := fun _ _ => CallOutcome.fail "not found"
  putProduct := fun _ _ => CallOutcome.fail "not found"
  getCustomer := fun _ _ => CallOutcome.fail "not found"
  getCustomers := fun _ _ => CallOutcome.fail "not found"
  postCustomer := fun _ _ => CallOutcome.fail "not found"
  putCustomer := fun _ _ => CallOutcome.fail "not found"
  getMetafield := fun _ _ => CallOutcome.fail "not found"
  getMetafields := fun _ _ => CallOutcome.fail "not found"
  postMetafield := fun _ _ => CallOutcome.fail "not found"
  putMetafield := fun _ _ => CallOutcome.fail "not found"
  deleteCall := fun _ => some "not found"
  countCall := fun path _ =>
    if path = "admin/products/count.json" then CallOutcome.ok 7
    else CallOutcome.fail "not found"

/-! ### The claims -/

/-- Claim C1: for every id, the item-scoped operations build the item path
from the collection base and the decimal id — Product `Get`/`Delete` target
`admin/products/<id>.json`, Customer `Get`/`Delete` target
`admin/customers/<id>.json` — and `Delete` issues exactly one DELETE to that
path, surfacing the transport error unchanged. -/
theorem C1_item_paths (s : ProductServiceOp) (t : CustomerServiceOp)
    (id : Nat) (options : Options) :
    (s.Get id options).reqs =
      [HttpReq.get ("admin/products/" ++ Nat.repr id ++ ".json")] ∧
    (t.Get id options).reqs =
      [HttpReq.get ("admin/customers/" ++ Nat.repr id ++ ".json")] ∧
    (s.Delete id).reqs =
      [HttpReq.delete ("admin/products/" ++ Nat.repr id ++ ".json")] ∧
    (t.Delete id).reqs =
      [HttpReq.delete ("admin/customers/" ++ Nat.repr id ++ ".json")] ∧
    (s.Delete id).err =
      s.client.deleteCall ("admin/products/" ++ Nat.repr id ++ ".json") ∧
    (t.Delete id).err =
      t.client.deleteCall ("admin/customers/" ++ Nat.repr id ++ ".json") := by
  refine ⟨?_, ?_, ?_, ?_, ?_, ?_⟩ <;>
    simp [ProductServiceOp.Get, CustomerServiceOp.Get, ProductServiceOp.Delete,
      CustomerServiceOp.Delete, sprintf_s_d_json, sprintf_s_v_json,
      fmtUintD_eq_repr, fmtUintV_eq_repr, productsBasePath, customersBasePath]

/-- Claim C2: for every operation of the Product and Customer clients and
every client-primitive outcome, a non-nil returned error comes with the
entity/sequence result at its type's zero value (nil pointer or nil slice);
failure never yields a partially populated result. -/
theorem C2_zero_result_on_error (s : ProductServiceOp) (t : CustomerServiceOp)
    (p : Product) (c : Customer) (m : Metafield) (id mid : Nat)
    (options : Options) (e : GoErr) :
    ((s.List options).err = some e → (s.List options).res = []) ∧
    ((s.Get id options).err = some e → (s.Get id options).res = none) ∧
    ((s.Create p).err = some e → (s.Create p).res = none) ∧
    ((s.Update p).err = some e → (s.Update p).res = none) ∧
    ((s.ListMetafields id options).err = some e →
      (s.ListMetafields id options).res = []) ∧
    ((s.GetMetafield id mid options).err = some e →
      (s.GetMetafield id mid options).res = none) ∧
    ((s.CreateMetafield id m).err = some e → (s.CreateMetafield id m).res = none) ∧
    ((s.UpdateMetafield id m).err = some e → (s.UpdateMetafield id m).res = none) ∧
    ((t.List options).err = some e → (t.List options).res = []) ∧
    ((t.Search options).err = some e → (t.Search options).res = []) ∧
    ((t.Get id options).err = some e → (t.Get id options).res = none) ∧
    ((t.Create c).err = some e → (t.Create c).res = none) ∧
    ((t.Update c).err = some e → (t.Update c).res = none) ∧
    ((t.ListMetafields id options).err = some e →
      (t.ListMetafields id options).res = []) ∧
    ((t.GetMetafield id mid options).err = some e →
      (t.GetMetafield id mid options).res = none) ∧
    ((t.CreateMetafield id m).err = some e → (t.CreateMetafield id m).res = none) ∧
    ((t.UpdateMetafield id m).err = some e → (t.UpdateMetafield id m).res = none) := by
  refine ⟨?_, ?_, ?_, ?_, ?_, ?_, ?_, ?_, ?_, ?_, ?_, ?_, ?_, ?_, ?_, ?_, ?_⟩ <;>
    · intro h
      first
      | exact congrArg ProductsResource.Products
          (CallOutcome.dest_of_err_eq_some _ _ e h)
      | exact congrArg ProductResource.Product
          (CallOutcome.dest_of_err_eq_some _ _ e h)
      | exact congrArg CustomersResource.Customers
          (CallOutcome.dest_of_err_eq_some _ _ e h)
      | exact congrArg CustomerResource.Customer
          (CallOutcome.dest_of_err_eq_some _ _ e h)
      | exact congrArg MetafieldsResource.Metafields
          (CallOutcome.dest_of_err_eq_some _ _ e h)
      | exact congrArg MetafieldResource.Metafield
          (CallOutcome.dest_of_err_eq_some _ _ e h)

/-- Witness for C2 at the all-failing client: every entity/sequence result
is the zero value. -/
theorem C2_zero_result_on_error_witness :
    (ProductServiceOp.List ⟨failClient⟩ Options.nil).res = [] ∧
    (ProductServiceOp.Get ⟨failClient⟩ 7 Options.nil).res = none ∧
    (ProductServiceOp.Create ⟨failClient⟩ Product.zero).res = none ∧
    (ProductServiceOp.Update ⟨failClient⟩ Product.zero).res = none ∧
    (ProductServiceOp.ListMetafields ⟨failClient⟩ 7 Options.nil).res = [] ∧
    (ProductServiceOp.GetMetafield ⟨failClient⟩ 7 3 Options.nil).res = none ∧
    (ProductServiceOp.CreateMetafield ⟨failClient⟩ 7 ⟨0, "", "", ""⟩).res = none ∧
    (ProductServiceOp.UpdateMetafield ⟨failClient⟩ 7 ⟨0, "", "", ""⟩).res = none ∧
    (CustomerServiceOp.List ⟨failClient⟩ Options.nil).res = [] ∧
    (CustomerServiceOp.Search ⟨failClient⟩ Options.nil).res = [] ∧
    (CustomerServiceOp.Get ⟨failClient⟩ 7 Options.nil).res = none ∧
    (CustomerServiceOp.Create ⟨failClient⟩ Customer.zero).res = none ∧
    (CustomerServiceOp.Update ⟨failClient⟩ Customer.zero).res = none ∧
    (CustomerServiceOp.ListMetafields ⟨failClient⟩ 7 Options.nil).res = [] ∧
    (CustomerServiceOp.GetMetafield ⟨failClient⟩ 7 3 Options.nil).res = none ∧
    (CustomerServiceOp.CreateMetafield ⟨failClient⟩ 7 ⟨0, "", "", ""⟩).res = none ∧
    (CustomerServiceOp.UpdateMetafield ⟨failClient⟩ 7 ⟨0, "", "", ""⟩).res = none := by
  have h := C2_zero_result_on_error ⟨failClient⟩ ⟨failClient⟩ Product.zero
    Customer.zero ⟨0, "", "", ""⟩ 7 3 Options.nil "boom"
  exact ⟨h.1 rfl, h.2.1 rfl, h.2.2.1 rfl, h.2.2.2.1 rfl, h.2.2.2.2.1 rfl,
    h.2.2.2.2.2.1 rfl, h.2.2.2.2.2.2.1 rfl, h.2.2.2.2.2.2.2.1 rfl,
    h.2.2.2.2.2.2.2.2.1 rfl, h.2.2.2.2.2.2.2.2.2.1 rfl,
    h.2.2.2.2.2.2.2.2.2.2.1 rfl, h.2.2.2.2.2.2.2.2.2.2.2.1 rfl,
    h.2.2.2.2.2.2.2.2.2.2.2.2.1 rfl, h.2.2.2.2.2.2.2.2.2.2.2.2.2.1 rfl,
    h.2.2.2.2.2.2.2.2.2.2.2.2.2.2.1 rfl,
    h.2.2.2.2.2.2.2.2.2.2.2.2.2.2.2.1 rfl,
    h.2.2.2.2.2.2.2.2.2.2.2.2.2.2.2.2 rfl⟩

/-- Claim C3, evaluated at the failing input: marshalling a `Product` with
every optional field unset does NOT omit every key — the `image` field's
type is the plain struct `Image`, `encoding/json` never treats a struct
value as empty, so its `omitempty` tag is ineffective and the zero product
marshals to `{"image":{}}`, the `image` key present.  A zero `Customer`,
whose fields all have `omitempty`-effective types, does marshal to `{}`. -/
theorem C3_zero_product_emits_image_key :
    marshalProduct Product.zero = Json.jobj [("image", Json.jobj [])] ∧
    (marshalProduct Product.zero).hasKey "image" = true ∧
    marshalCustomer Customer.zero = Json.jobj [] := by
  refine ⟨rfl, ?_, rfl⟩
  rfl

/-- Claim C4: `Update` on an entity whose ID is unset (zero) targets the
path `admin/products/0.json` / `admin/customers/0.json`; the omission is
not corrected or rejected locally — the PUT is issued to that path and the
outcome is whatever the client returned for it. -/
theorem C4_update_unset_id (s : ProductServiceOp) (t : CustomerServiceOp)
    (p : Product) (c : Customer) (hp : p.ID = 0) (hc : c.ID = 0) :
    (s.Update p).reqs =
      [HttpReq.put "admin/products/0.json" (marshalProductResource ⟨some p⟩)] ∧
    (t.Update c).reqs =
      [HttpReq.put "admin/customers/0.json" (marshalCustomerResource ⟨some c⟩)] ∧
    (s.Update p).err = (s.client.putProduct "admin/products/0.json" ⟨some p⟩).err ∧
    (t.Update c).err = (t.client.putCustomer "admin/customers/0.json" ⟨some c⟩).err := by
  have hpp : sprintf_s_d_json productsBasePath 0 = "admin/products/0.json" := by
    decide
  have hcc : sprintf_s_d_json customersBasePath 0 = "admin/customers/0.json" := by
    decide
  refine ⟨?_, ?_, ?_, ?_⟩ <;>
    simp [ProductServiceOp.Update, CustomerServiceOp.Update, hp, hc, hpp, hcc]

/-- Witness for C4: the zero-valued entities have unset IDs and their
update really goes to the `0.json` paths. -/
theorem C4_update_unset_id_witness :
    Product.zero.ID = 0 ∧ Customer.zero.ID = 0 ∧
    (ProductServiceOp.Update ⟨failClient⟩ Product.zero).reqs =
      [HttpReq.put "admin/products/0.json"
        (marshalProductResource ⟨some Product.zero⟩)] ∧
    (CustomerServiceOp.Update ⟨failClient⟩ Customer.zero).reqs =
      [HttpReq.put "admin/customers/0.json"
        (marshalCustomerResource ⟨some Customer.zero⟩)] := by
  have h := C4_update_unset_id ⟨failClient⟩ ⟨failClient⟩ Product.zero
    Customer.zero rfl rfl
  exact ⟨rfl, rfl, h.1, h.2.1⟩

/-- Claim C5: every metafield-prefixed operation of the Product client
constructs a Metafield Helper bound to resource name `"products"` and the
given id and forwards the call unchanged, so its requests target
`products/<id>/metafields...` paths; the Customer client does the same with
`"customers"`. -/
theorem C5_metafield_delegation (s : ProductServiceOp) (t : CustomerServiceOp)
    (id mid : Nat) (m : Metafield) (options : Options) :
    s.ListMetafields id options =
      MetafieldServiceOp.List ⟨s.client, "products", id⟩ options ∧
    s.CountMetafields id options =
      MetafieldServiceOp.Count ⟨s.client, "products", id⟩ options ∧
    s.GetMetafield id mid options =
      MetafieldServiceOp.Get ⟨s.client, "products", id⟩ mid options ∧
    s.CreateMetafield id m =
      MetafieldServiceOp.Create ⟨s.client, "products", id⟩ m ∧
    s.UpdateMetafield id m =
      MetafieldServiceOp.Update ⟨s.client, "products", id⟩ m ∧
    s.DeleteMetafield id mid =
      MetafieldServiceOp.Delete ⟨s.client, "products", id⟩ mid ∧
    t.ListMetafields id options =
      MetafieldServiceOp.List ⟨t.client, "customers", id⟩ options ∧
    t.CountMetafields id options =
      MetafieldServiceOp.Count ⟨t.client, "customers", id⟩ options ∧
    t.GetMetafield id mid options =
      MetafieldServiceOp.Get ⟨t.client, "customers", id⟩ mid options ∧
    t.CreateMetafield id m =
      MetafieldServiceOp.Create ⟨t.client, "customers", id⟩ m ∧
    t.UpdateMetafield id m =
      MetafieldServiceOp.Update ⟨t.client, "customers", id⟩ m ∧
    t.DeleteMetafield id mid =
      MetafieldServiceOp.Delete ⟨t.client, "customers", id⟩ mid ∧
    (s.ListMetafields id options).reqs =
      [HttpReq.get ("products/" ++ Nat.repr id ++ "/metafields.json")] ∧
    (s.CountMetafields id options).reqs =
      [HttpReq.count ("products/" ++ Nat.repr id ++ "/metafields/count.json")] ∧
    (s.GetMetafield id mid options).reqs =
      [HttpReq.get ("products/" ++ Nat.repr id ++ "/metafields/" ++
        Nat.repr mid ++ ".json")] ∧
    (s.CreateMetafield id m).reqs =
      [HttpReq.post ("products/" ++ Nat.repr id ++ "/metafields.json")
        (marshalMetafieldResource ⟨some m⟩)] ∧
    (s.UpdateMetafield id m).reqs =
      [HttpReq.put ("products/" ++ Nat.repr id ++ "/metafields/" ++
        Nat.repr m.ID ++ ".json") (marshalMetafieldResource ⟨some m⟩)] ∧
    (s.DeleteMetafield id mid).reqs =
      [HttpReq.delete ("products/" ++ Nat.repr id ++ "/metafields/" ++
        Nat.repr mid ++ ".json")] ∧
    (t.ListMetafields id options).reqs =
      [HttpReq.get ("customers/" ++ Nat.repr id ++ "/metafields.json")] ∧
    (t.CountMetafields id options).reqs =
      [HttpReq.count ("customers/" ++ Nat.repr id ++ "/metafields/count.json")] ∧
    (t.GetMetafield id mid options).reqs =
      [HttpReq.get ("customers/" ++ Nat.repr id ++ "/metafields/" ++
        Nat.repr mid ++ ".json")] ∧
    (t.CreateMetafield id m).reqs =
      [HttpReq.post ("customers/" ++ Nat.repr id ++ "/metafields.json")
        (marshalMetafieldResource ⟨some m⟩)] ∧
    (t.UpdateMetafield id m).reqs =
      [HttpReq.put ("customers/" ++ Nat.repr id ++ "/metafields/" ++
        Nat.repr m.ID ++ ".json") (marshalMetafieldResource ⟨some m⟩)] ∧
    (t.DeleteMetafield id mid).reqs =
      [HttpReq.delete ("customers/" ++ Nat.repr id ++ "/metafields/" ++
        Nat.repr mid ++ ".json")] := by
  refine ⟨rfl, rfl, rfl, rfl, rfl, rfl, rfl, rfl, rfl, rfl, rfl, rfl,
    ?_, ?_, ?_, ?_, ?_, ?_, ?_, ?_, ?_, ?_, ?_, ?_⟩ <;>
    simp [ProductServiceOp.ListMetafields, ProductServiceOp.CountMetafields,
      ProductServiceOp.GetMetafield, ProductServiceOp.CreateMetafield,
      ProductServiceOp.UpdateMetafield, ProductServiceOp.DeleteMetafield,
      CustomerServiceOp.ListMetafields, CustomerServiceOp.CountMetafields,
      CustomerServiceOp.GetMetafield, CustomerServiceOp.CreateMetafield,
      CustomerServiceOp.UpdateMetafield, CustomerServiceOp.DeleteMetafield,
      MetafieldServiceOp.List, MetafieldServiceOp.Count, MetafieldServiceOp.Get,
      MetafieldServiceOp.Create, MetafieldServiceOp.Update,
      MetafieldServiceOp.Delete, productsResourceName, customersResourceName,
      fmtUintD_eq_repr]

/-- Claim C6: `Create(E)` wraps the entity in the singular envelope
(`{"product": E}` / `{"customer": E}`), POSTs it to the collection path,
and returns the entity unwrapped from the singular field of the response
envelope. -/
theorem C6_create_wraps_and_unwraps (s : ProductServiceOp)
    (t : CustomerServiceOp) (p : Product) (c : Customer)
    (rp : ProductResource) (rc : CustomerResource) :
    (s.Create p).reqs =
      [HttpReq.post "admin/products.json"
        (Json.jobj [("product", marshalProduct p)])] ∧
    (t.Create c).reqs =
      [HttpReq.post "admin/customers.json"
        (Json.jobj [("customer", marshalCustomer c)])] ∧
    (s.client.postProduct "admin/products.json" ⟨some p⟩ = CallOutcome.ok rp →
      (s.Create p).res = rp.Product ∧ (s.Create p).err = none) ∧
    (t.client.postCustomer "admin/customers.json" ⟨some c⟩ = CallOutcome.ok rc →
      (t.Create c).res = rc.Customer ∧ (t.Create c).err = none) := by
  refine ⟨rfl, rfl, ?_, ?_⟩
  · intro h
    have h2 : s.client.postProduct (sprintf_s_json productsBasePath)
        ⟨some p⟩ = CallOutcome.ok rp := h
    constructor <;>
      simp [ProductServiceOp.Create, h2, CallOutcome.dest, CallOutcome.err]
  · intro h
    have h2 : t.client.postCustomer (sprintf_s_json customersBasePath)
        ⟨some c⟩ = CallOutcome.ok rc := h
    constructor <;>
      simp [CustomerServiceOp.Create, h2, CallOutcome.dest, CallOutcome.err]

/-- Witness for C6: with a client that answers the POST with an envelope
holding the zero entity, `Create` returns exactly that envelope's entity. -/
theorem C6_create_wraps_and_unwraps_witness :
    okClient.postProduct "admin/products.json" ⟨some Product.zero⟩ =
      CallOutcome.ok ⟨some Product.zero⟩ ∧
    (ProductServiceOp.Create ⟨okClient⟩ Product.zero).res = some Product.zero ∧
    (CustomerServiceOp.Create ⟨okClient⟩ Customer.zero).res = some Customer.zero := by
  have h := C6_create_wraps_and_unwraps ⟨okClient⟩ ⟨okClient⟩ Product.zero
    Customer.zero ⟨some Product.zero⟩ ⟨some Customer.zero⟩
  exact ⟨rfl, (h.2.2.1 rfl).1, (h.2.2.2 rfl).1⟩

/-- Claim C7: `Count` issues a GET of the `<collection>/count.json` path via
the HTTP Client's `Count` primitive and passes its bare integer outcome
through without envelope unwrapping; against a client returning count `7`
for `admin/products/count.json`, Product `Count(nil)` returns `(7, nil)`. -/
theorem C7_count_bare_integer (s : ProductServiceOp) (t : CustomerServiceOp)
    (options : Options) :
    (s.Count options).reqs = [HttpReq.count "admin/products/count.json"] ∧
    (t.Count options).reqs = [HttpReq.count "admin/customers/count.json"] ∧
    (s.Count options).res =
      (s.client.countCall "admin/products/count.json" options).dest 0 ∧
    (s.Count options).err =
      (s.client.countCall "admin/products/count.json" options).err ∧
    (t.Count options).res =
      (t.client.countCall "admin/customers/count.json" options).dest 0 ∧
    (t.Count options).err =
      (t.client.countCall "admin/customers/count.json" options).err ∧
    (ProductServiceOp.Count ⟨client7⟩ Options.nil).res = 7 ∧
    (ProductServiceOp.Count ⟨client7⟩ Options.nil).err = none := by
  refine ⟨rfl, rfl, rfl, rfl, rfl, rfl, ?_, ?_⟩ <;> decide

/-- Claim C8: every operation of both resource clients returns exactly the
error value of the one HTTP Client primitive call it makes — unchanged,
unwrapped, no retry, no locally introduced error. -/
theorem C8_error_passthrough (s : ProductServiceOp) (t : CustomerServiceOp)
    (p : Product) (c : Customer) (m : Metafield) (id mid : Nat)
    (options : Options) :
    (s.List options).err = (s.client.getProducts "admin/products.json" options).err ∧
    (s.Count options).err =
      (s.client.countCall "admin/products/count.json" options).err ∧
    (s.Get id options).err =
      (s.client.getProduct (sprintf_s_d_json productsBasePath id) options).err ∧
    (s.Create p).err = (s.client.postProduct "admin/products.json" ⟨some p⟩).err ∧
    (s.Update p).err =
      (s.client.putProduct (sprintf_s_d_json productsBasePath p.ID) ⟨some p⟩).err ∧
    (s.Delete id).err = s.client.deleteCall (sprintf_s_d_json productsBasePath id) ∧
    (s.ListMetafields id options).err =
      (s.client.getMetafields
        ("products/" ++ fmtUintD id ++ "/metafields.json") options).err ∧
    (s.CountMetafields id options).err =
      (s.client.countCall
        ("products/" ++ fmtUintD id ++ "/metafields/count.json") options).err ∧
    (s.GetMetafield id mid options).err =
      (s.client.getMetafield
        ("products/" ++ fmtUintD id ++ "/metafields/" ++ fmtUintD mid ++ ".json")
        options).err ∧
    (s.CreateMetafield id m).err =
      (s.client.postMetafield
        ("products/" ++ fmtUintD id ++ "/metafields.json") ⟨some m⟩).err ∧
    (s.UpdateMetafield id m).err =
      (s.client.putMetafield
        ("products/" ++ fmtUintD id ++ "/metafields/" ++ fmtUintD m.ID ++ ".json")
        ⟨some m⟩).err ∧
    (s.DeleteMetafield id mid).err =
      s.client.deleteCall
        ("products/" ++ fmtUintD id ++ "/metafields/" ++ fmtUintD mid ++ ".json") ∧
    (t.List options).err = (t.client.getCustomers "admin/customers.json" options).err ∧
    (t.Count options).err =
      (t.client.countCall "admin/customers/count.json" options).err ∧
    (t.Get id options).err =
      (t.client.getCustomer (sprintf_s_v_json customersBasePath id) options).err ∧
    (t.Search options).err =
      (t.client.getCustomers "admin/customers/search.json" options).err ∧
    (t.Create c).err = (t.client.postCustomer "admin/customers.json" ⟨some c⟩).err ∧
    (t.Update c).err =
      (t.client.putCustomer (sprintf_s_d_json customersBasePath c.ID) ⟨some c⟩).err ∧
    (t.Delete id).err = t.client.deleteCall (sprintf_s_d_json customersBasePath id) ∧
    (t.ListMetafields id options).err =
      (t.client.getMetafields
        ("customers/" ++ fmtUintD id ++ "/metafields.json") options).err ∧
    (t.CountMetafields id options).err =
      (t.client.countCall
        ("customers/" ++ fmtUintD id ++ "/metafields/count.json") options).err ∧
    (t.GetMetafield id mid options).err =
      (t.client.getMetafield
        ("customers/" ++ fmtUintD id ++ "/metafields/" ++ fmtUintD mid ++ ".json")
        options).err ∧
    (t.CreateMetafield id m).err =
      (t.client.postMetafield
        ("customers/" ++ fmtUintD id ++ "/metafields.json") ⟨some m⟩).err ∧
    (t.UpdateMetafield id m).err =
      (t.client.putMetafield
        ("customers/" ++ fmtUintD id ++ "/metafields/" ++ fmtUintD m.ID ++ ".json")
        ⟨some m⟩).err ∧
    (t.DeleteMetafield id mid).err =
      t.client.deleteCall
        ("customers/" ++ fmtUintD id ++ "/metafields/" ++ fmtUintD mid ++ ".json") := by
  refine ⟨rfl, rfl, rfl, rfl, rfl, rfl, rfl, rfl, rfl, rfl, rfl, rfl, rfl,
    rfl, rfl, rfl, rfl, rfl, rfl, rfl, rfl, rfl, rfl, rfl, rfl⟩

/-- Claim C9: when the HTTP Client's `Get` succeeds but leaves the singular
envelope field unset, Product `Get` and Customer `Get` return a nil entity
pointer together with a nil error — the caller observes `(nil, nil)`. -/
theorem C9_get_nil_entity_nil_error (s : ProductServiceOp)
    (t : CustomerServiceOp) (id : Nat) (options : Options) :
    (s.client.getProduct (sprintf_s_d_json productsBasePath id) options =
        CallOutcome.ok ⟨none⟩ →
      (s.Get id options).res = none ∧ (s.Get id options).err = none) ∧
    (t.client.getCustomer (sprintf_s_v_json customersBasePath id) options =
        CallOutcome.ok ⟨none⟩ →
      (t.Get id options).res = none ∧ (t.Get id options).err = none) := by
  constructor <;>
    · intro h
      constructor <;>
        simp [ProductServiceOp.Get, CustomerServiceOp.Get, h,
          CallOutcome.dest, CallOutcome.err]

/-- Witness for C9: the all-succeeding client leaves the envelope fields
unset and both `Get`s return `(nil, nil)`. -/
theorem C9_get_nil_entity_nil_error_witness :
    (ProductServiceOp.Get ⟨okClient⟩ 42 Options.nil).res = none ∧
    (ProductServiceOp.Get ⟨okClient⟩ 42 Options.nil).err = none ∧
    (CustomerServiceOp.Get ⟨okClient⟩ 42 Options.nil).res = none ∧
    (CustomerServiceOp.Get ⟨okClient⟩ 42 Options.nil).err = none := by
  have h := C9_get_nil_entity_nil_error ⟨okClient⟩ ⟨okClient⟩ 42 Options.nil
  exact ⟨(h.1 rfl).1, (h.1 rfl).2, (h.2 rfl).1, (h.2 rfl).2⟩

/-- Claim C10: for every `uint64` id, the `%v`-built path of Customer `Get`
equals the `%d`-built path used by Customer `Delete` and Product `Get`: both
render the id as the same decimal string, so Customer `Get` requests the
same `admin/customers/<id>.json` item path `Delete` targets. -/
theorem C10_v_verb_matches_d_verb (s : ProductServiceOp)
    (t : CustomerServiceOp) (id : Nat) (options : Options)
    (h : id < 2 ^ 64) :
    sprintf_s_v_json customersBasePath id = sprintf_s_d_json customersBasePath id ∧
    sprintf_s_v_json customersBasePath id =
      "admin/customers/" ++ Nat.repr id ++ ".json" ∧
    (t.Get id options).reqs =
      [HttpReq.get (sprintf_s_d_json customersBasePath id)] ∧
    (t.Delete id).reqs =
      [HttpReq.delete (sprintf_s_d_json customersBasePath id)] ∧
    (s.Get id options).reqs =
      [HttpReq.get (sprintf_s_d_json productsBasePath id)] := by
  refine ⟨?_, ?_, ?_, ?_, ?_⟩ <;>
    simp [CustomerServiceOp.Get, CustomerServiceOp.Delete, ProductServiceOp.Get,
      sprintf_s_v_json, sprintf_s_d_json, fmtUintV_eq_fmtUintD, fmtUintD_eq_repr,
      customersBasePath]

/-- Witness for C10 at id `42`, a `uint64` value. -/
theorem C10_v_verb_matches_d_verb_witness :
    (42 : Nat) < 2 ^ 64 ∧
    sprintf_s_v_json customersBasePath 42 = sprintf_s_d_json customersBasePath 42 := by
  have h := C10_v_verb_matches_d_verb ⟨okClient⟩ ⟨okClient⟩ 42 Options.nil
    (by decide)
  exact ⟨by decide, h.1⟩
